import Mathlib

/-!
Verification of the duckypad_daemon core: the rule engine (`next_profile`),
the profile-switch protocol (`goto_profile`), the per-cycle switch controller
(`switch_profile`), the callback invocation (`run_callback`), and the HID
transport helpers (`hid_read`, `hid_info`).  The Rust source is embedded
shallowly: serde_json values become `JValue`, Rust panics become
`Except.error`, device I/O outcomes are supplied by an explicit environment,
and the device interactions performed by a call are returned as an explicit
log.
-/

/-- A JSON value as produced by the serde_json parser.  Numbers are modelled
as integers: every number the daemon's config schema accepts via as_u64 is an
integer, and non-integer numbers behave like any other value on which as_u64
fails. -/
inductive JValue where
  | null : JValue
  | bool (b : Bool) : JValue
  | num (n : Int) : JValue
  | str (s : String) : JValue
  | arr (items : List JValue) : JValue
  | obj (fields : List (String × JValue)) : JValue

/-- Key lookup in the field list of a JSON object (serde_json Map::get). -/
def lookupField : List (String × JValue) → String → Option JValue
  | [], _ => none
  | (k, v) :: rest, key => if k = key then some v else lookupField rest key

/-- Value::get on a JSON value: key lookup when the value is an object. -/
def jget : JValue → String → Option JValue
  | .obj fields, key => lookupField fields key
  | _, _ => none

/-- Value::as_str. -/
def JValue.as_str : JValue → Option String
  | .str s => some s
  | _ => none

/-- Value::as_bool. -/
def JValue.as_bool : JValue → Option Bool
  | .bool b => some b
  | _ => none

/-- Value::as_u64: succeeds on integers representable as u64. -/
def JValue.as_u64 : JValue → Option Nat
  | .num n => if 0 ≤ n ∧ n < 2 ^ 64 then some n.toNat else none
  | _ => none

/-- Value::as_array. -/
def JValue.as_array : JValue → Option (List JValue)
  | .arr items => some items
  | _ => none

/-- Whether the first character list is a prefix of the second. -/
def strStarts : List Char → List Char → Bool
  | [], _ => true
  | _ :: _, [] => false
  | p :: ps, h :: hs => p == h && strStarts ps hs

/-- Whether the first character list occurs contiguously in the second. -/
def strSub (pat : List Char) : List Char → Bool
  | [] => strStarts pat []
  | c :: rest => strStarts pat (c :: rest) || strSub pat rest

/-- Rust str::contains with a string pattern: case-sensitive substring
containment. -/
def strContains (hay pat : String) : Bool :=
  strSub pat.toList hay.toList

/-- The fields of the active window record used by rule matching and by the
callback (lib.rs ActiveWindow, restricted to the fields the embedded
functions read). -/
structure ActiveWindow where
  title : String
  process_name : String
deriving DecidableEq

/-- Field access for one rule of the config: the enabled flag
(lib.rs 345-350).  An `Except.error` models a Rust panic. -/
def getEnabled (item : JValue) : Except String Bool :=
  match jget item "enabled" with
  | none => .error "Config rule field \"enabled\" is missing!"
  | some v =>
    match v.as_bool with
    | some b => .ok b
    | none => .error "Config rule field \"enabled\" needs to be a bool!"

/-- Field access for one rule of the config: the process_name pattern, with
absence meaning the empty pattern (lib.rs 351-356). -/
def confProcessName (item : JValue) : Except String String :=
  match jget item "process_name" with
  | some v =>
    match v.as_str with
    | some s => .ok s
    | none => .error "Config rule field \"process_name\" needs to be a string!"
  | none => .ok ""

/-- Field access for one rule of the config: the title pattern, with the
python-autoswitcher alias window_title as fallback when title is absent
(lib.rs 357-367). -/
def confTitle (item : JValue) : Except String String :=
  match jget item "title" with
  | some v =>
    match v.as_str with
    | some s => .ok s
    | none => .error "Config rule field \"title\" needs to be a string!"
  | none =>
    match jget item "window_title" with
    | none => .error "Config rule field \"title\" (alias \"window_title\") is missing!"
    | some v =>
      match v.as_str with
      | some s => .ok s
      | none => .error "Config rule field \"window_title\" needs to be a string!"

/-- Field access for one rule of the config: the app_name pattern, which must
be present (lib.rs 368-372). -/
def confAppName (item : JValue) : Except String String :=
  match jget item "app_name" with
  | none => .error "Config rule field \"app_name\" is missing!"
  | some v =>
    match v.as_str with
    | some s => .ok s
    | none => .error "Config rule field \"app_name\" needs to be a string!"

/-- Field access for one rule of the config: the switch_to target, read with
as_u64 and then converted with u8::try_from (lib.rs 378-388). -/
def confSwitchTo (item : JValue) : Except String Nat :=
  match jget item "switch_to" with
  | none => .error "Config rule field \"switch_to\" is missing!"
  | some v =>
    match v.as_u64 with
    | none => .error "Config rule field \"switch_to\" needs to be an unsigned int (u8)!"
    | some n =>
      if n ≤ 255 then .ok n
      else .error "Config rule field \"switch_to\" needs to be an unsigned int (u8)!"

/-- The loop body of next_profile over the rules_list entries
(lib.rs 341-391). -/
def next_profile_rules : List JValue → ActiveWindow → String → Except String (Option Nat)
  | [], _, _ => .ok none
  | item :: rest, window, app_name =>
    match item with
    | .obj _ =>
      match getEnabled item with
      | .error e => .error e
      | .ok false => next_profile_rules rest window app_name
      | .ok true =>
        match confProcessName item with
        | .error e => .error e
        | .ok conf_process_name =>
          match confTitle item with
          | .error e => .error e
          | .ok conf_title =>
            match confAppName item with
            | .error e => .error e
            | .ok conf_app_name =>
              if (conf_process_name.length == 0
                    || strContains window.process_name conf_process_name)
                  && (conf_title.length == 0 || strContains window.title conf_title)
                  && (conf_app_name.length == 0 || strContains app_name conf_app_name) then
                match confSwitchTo item with
                | .error e => .error e
                | .ok profile => .ok (some profile)
              else next_profile_rules rest window app_name
    | _ => .error "Config rules need tobe JSON objects!"

/-- Rule evaluation (lib.rs next_profile, 331-394): first enabled matching
rule wins; `Except.error` models the panics raised on malformed configs. -/
def next_profile (config : JValue) (window : ActiveWindow) (app_name : String) :
    Except String (Option Nat) :=
  match config with
  | .obj _ =>
    match jget config "rules_list" with
    | none => .error "Config field \"rules_list\" is missing!"
    | some rv =>
      match rv.as_array with
      | none => .error "Config field \"rules_list\" needs to be a JSON array!"
      | some rules => next_profile_rules rules window app_name
  | _ => .error "Config needs to be a JSON object!"

example :
    next_profile
      (.obj [("rules_list", .arr
        [.obj [("enabled", .bool true), ("title", .str "Code"),
               ("app_name", .str ""), ("switch_to", .num 2)],
         .obj [("enabled", .bool true), ("title", .str ""),
               ("app_name", .str ""), ("switch_to", .num 1)]])])
      ⟨"Visual Studio Code", "code"⟩ "code" = .ok (some 2) := rfl

example :
    next_profile
      (.obj [("rules_list", .arr
        [.obj [("enabled", .bool true), ("title", .str "Code"),
               ("app_name", .str ""), ("switch_to", .num 2)],
         .obj [("enabled", .bool true), ("title", .str ""),
               ("app_name", .str ""), ("switch_to", .num 1)]])])
      ⟨"Terminal", "bash"⟩ "bash" = .ok (some 1) := rfl

/-- Outbound HID report size (hid.rs PC_TO_DUCKYPAD_HID_BUF_SIZE). -/
def PC_TO_DUCKYPAD_HID_BUF_SIZE : Nat := 64

/-- Inbound HID report size (hid.rs DUCKYPAD_TO_PC_HID_BUF_SIZE). -/
def DUCKYPAD_TO_PC_HID_BUF_SIZE : Nat := 32

/-- The outbound frame built by goto_profile (lib.rs 315-318): a 64-byte
zeroed buffer with buf(0)=0x05, buf(2)=0x01, buf(3)=profile. -/
def gotoFrame (profile : Nat) : List Nat :=
  (((List.replicate PC_TO_DUCKYPAD_HID_BUF_SIZE 0).set 0 0x05).set 2 0x01).set 3 profile

/-- Per-tick environment: the outcomes of the external interactions a call to
switch_profile can perform.  window models the get_active_window or
window-script result (none = Err), app_name models get_app_name, init_ok
whether hid::init finds and opens the device, write_ok whether the
device.write syscall inside hid::write succeeds, and read_err whether the
follow-up hid::read fails with an error (a reply or a 5-second timeout are
both non-errors for goto_profile). -/
structure Env where
  window : Option ActiveWindow
  app_name : Option String
  init_ok : Bool
  write_ok : Bool
  read_err : Bool

/-- Profile switch command (lib.rs goto_profile, 311-322).  The result pair
is (process outcome, frames passed to device.write).  The outer
`Except String` models the assert! panic; the inner `Except Unit` models the
HidError result.  The assertion is checked before the frame is constructed
and before any transport access. -/
def goto_profile (env : Env) (profile : Nat) :
    Except String (Except Unit Unit) × List (List Nat) :=
  if 1 ≤ profile ∧ profile ≤ 31 then
    let buf := gotoFrame profile
    if env.write_ok then
      if env.read_err then (.ok (.error ()), [buf]) else (.ok (.ok ()), [buf])
    else (.ok (.error ()), [buf])
  else (.error "assertion failed: profile >= 1 && profile <= 31", [])

/-- Callback invocation (lib.rs run_callback, 269-290).  The Command is
modelled by its current argument list, which run_callback mutates in place by
appending; the spawned child receives the whole resulting list.  The returned
list is both the new Command state and the spawned argument list. -/
def run_callback (callback : List String) (profile : Nat) (window : ActiveWindow)
    (app_name : String) : List String :=
  let c1 := callback ++ ["-p", toString profile]
  let c2 := if app_name ≠ "" then c1 ++ ["-a", app_name] else c1
  let c3 := if window.title ≠ "" then c2 ++ ["-t", window.title] else c2
  if window.process_name ≠ "" then c3 ++ ["-n", window.process_name] else c3

/-- The observable device and process interactions of one switch_profile
call: number of hid::init attempts, frames passed to device.write, and
argument lists of spawned callback processes. -/
structure SwitchLog where
  opens : Nat
  writes : List (List Nat)
  spawns : List (List String)
deriving DecidableEq

/-- One polling cycle (lib.rs switch_profile, 119-154).  Returns the new
prev_profile value, the new callback Command state, and the interaction log;
`Except.error` models a panic (from next_profile or from goto_profile's
assertion). -/
def switch_profile (env : Env) (config : JValue) (prev_profile : Option Nat)
    (callback : Option (List String)) :
    Except String (Option Nat) × Option (List String) × SwitchLog :=
  match env.window with
  | none => (.ok prev_profile, callback, ⟨0, [], []⟩)
  | some window =>
    let app_name := env.app_name.getD "unknown"
    match next_profile config window app_name with
    | .error e => (.error e, callback, ⟨0, [], []⟩)
    | .ok none => (.ok prev_profile, callback, ⟨0, [], []⟩)
    | .ok (some profile) =>
      if prev_profile = some profile then (.ok prev_profile, callback, ⟨0, [], []⟩)
      else if env.init_ok then
        match goto_profile env profile with
        | (.error e, ws) => (.error e, callback, ⟨1, ws, []⟩)
        | (.ok (.ok _), ws) =>
          match callback with
          | some cb =>
            let cb2 := run_callback cb profile window app_name
            (.ok (some profile), some cb2, ⟨1, ws, [cb2]⟩)
          | none => (.ok (some profile), none, ⟨1, ws, []⟩)
        | (.ok (.error _), ws) => (.ok prev_profile, callback, ⟨1, ws, []⟩)
      else (.ok prev_profile, callback, ⟨1, [], []⟩)

/-- Config loading (lib.rs read_config, 99-107): the file is parsed as JSON
and any I/O or parse failure panics; no schema validation happens here.  File
reading and JSON parsing are abstracted: the input is the parse result, with
`none` modelling unparsable text. -/
def read_config (parsed : Option JValue) : Except String JValue :=
  match parsed with
  | some v => .ok v
  | none => .error "Error parsing config file as json!"

/-- Outcome of one non-blocking device.read call inside hid::read: either the
device delivered a byte sequence (possibly empty, meaning no data yet) or the
read syscall failed. -/
inductive PollRes where
  | bytes (data : List Nat) : PollRes
  | readErr : PollRes
deriving DecidableEq

/-- The 32-byte inbound buffer after a successful device.read that delivered
data: the delivered bytes (at most 32) over a zero-initialised buffer. -/
def read_buf (data : List Nat) : List Nat :=
  data.take DUCKYPAD_TO_PC_HID_BUF_SIZE ++
    List.replicate (DUCKYPAD_TO_PC_HID_BUF_SIZE - data.length) 0

/-- The polling loop of hid::read (hid.rs 99-114), with wall-clock time made
explicit in milliseconds.  t is the elapsed time at the loop check (the loop
runs while t ≤ 5000), i counts read attempts; dev i is the outcome of the
i-th non-blocking read and extra i ≥ 0 models the time that attempt and any
sleep overshoot took beyond the fixed 10 ms sleep. -/
def hid_read_loop (dev : Nat → PollRes) (extra : Nat → Nat) (t i : Nat) :
    Except Unit (Option (List Nat)) :=
  if t ≤ 5000 then
    match dev i with
    | .readErr => .error ()
    | .bytes data =>
      if 0 < min data.length DUCKYPAD_TO_PC_HID_BUF_SIZE then .ok (some (read_buf data))
      else hid_read_loop dev extra (t + 10 + extra i) (i + 1)
  else .ok none
termination_by 5001 - t
decreasing_by omega

/-- hid::read (hid.rs 99-114): bounded wait for one inbound frame, polling
from elapsed time 0. -/
def hid_read (dev : Nat → PollRes) (extra : Nat → Nat) : Except Unit (Option (List Nat)) :=
  hid_read_loop dev extra 0 0

/-- Environment for hid::info: the outcomes of get_product_string,
get_serial_number_string, and of the hid::write request that carries the info
query frame (error = HidError, ok none = 5-second timeout, ok some = the
32-byte reply). -/
structure InfoEnv where
  product_string : Except Unit (Option String)
  serial_string : Except Unit (Option String)
  reply : Except Unit (Option (List Nat))

/-- Device and firmware information (hid.rs DuckyPadInfo). -/
structure DuckyPadInfo where
  model : String
  serial : String
  firmware : String
deriving DecidableEq

/-- The double unwrap_or_else fallback used for model and serial
(hid.rs 62-69). -/
def unknownFallback (r : Except Unit (Option String)) : String :=
  match r with
  | .ok (some s) => s
  | .ok none => "unknown"
  | .error _ => "unknown"

/-- The outbound info-query frame (hid.rs 71-72): 64 zero bytes with
buf(0)=0x05 (and hence buf(2)=0x00, the info sub-operation). -/
def infoFrame : List Nat :=
  (List.replicate PC_TO_DUCKYPAD_HID_BUF_SIZE 0).set 0 0x05

/-- hid::info (hid.rs 61-86): model and serial from transport string queries,
firmware decoded from reply bytes 3, 4, 5 as "a.b.c"; every field falls back
to "unknown" independently and no error is propagated. -/
def hid_info (env : InfoEnv) : DuckyPadInfo :=
  { model := unknownFallback env.product_string
    serial := unknownFallback env.serial_string
    firmware :=
      match env.reply with
      | .ok (some buffer) =>
        toString (buffer.getD 3 0) ++ "." ++ toString (buffer.getD 4 0) ++ "."
          ++ toString (buffer.getD 5 0)
      | .ok none => "unknown"
      | .error _ => "unknown" }

/-- A parsed rule of the config, with the field semantics the code gives
them: process_name is the empty pattern when the key is absent, title is the
title key or its window_title alias, app_name must be present, and switch_to
fits in a u8. -/
structure Rule where
  enabled : Bool
  process_name : String
  title : String
  app_name : String
  switch_to : Nat
deriving DecidableEq

/-- Parse one rules_list entry into a Rule, failing exactly when any of the
field accesses of next_profile would panic on it. -/
def ruleOfJson (item : JValue) : Option Rule :=
  match item with
  | .obj _ =>
    match (getEnabled item).toOption, (confProcessName item).toOption,
        (confTitle item).toOption, (confAppName item).toOption,
        (confSwitchTo item).toOption with
    | some e, some pn, some t, some an, some st => some ⟨e, pn, t, an, st⟩
    | _, _, _, _, _ => none
  | _ => none

/-- Parse a whole rules_list. -/
def parseRules : List JValue → Option (List Rule)
  | [] => some []
  | item :: rest =>
    match ruleOfJson item, parseRules rest with
    | some r, some rs => some (r :: rs)
    | _, _ => none

/-- Whether an enabled rule's three effective patterns all match the context:
each pattern is empty or contained case-sensitively in its context field. -/
def ruleMatches (r : Rule) (window : ActiveWindow) (app_name : String) : Bool :=
  (r.process_name.length == 0 || strContains window.process_name r.process_name)
    && (r.title.length == 0 || strContains window.title r.title)
    && (r.app_name.length == 0 || strContains app_name r.app_name)

/-- Reference first-match evaluation over parsed rules: skip disabled rules,
return the switch_to of the first enabled matching rule, none otherwise. -/
def evalRules : List Rule → ActiveWindow → String → Option Nat
  | [], _, _ => none
  | r :: rest, window, app_name =>
    if r.enabled && ruleMatches r window app_name then some r.switch_to
    else evalRules rest window app_name

/-- A rule as claim C1 describes it: three optional patterns, each treated as
a wildcard when absent or empty. -/
structure ClaimRule where
  enabled : Bool
  process_name : Option String
  title : Option String
  app_name : Option String
  target_profile : Nat

/-- Pattern test as claim C1 words it: the pattern is absent or empty, or is
contained case-sensitively as a substring in the context field. -/
def claimPat (pat : Option String) (field : String) : Bool :=
  match pat with
  | none => true
  | some p => p.length == 0 || strContains field p

/-- Rule evaluation exactly as claim C1 states it (a reference definition
following the claim's words, for comparison with next_profile): iterate in
order, skip disabled rules, an enabled rule matches iff each of its three
patterns is absent/empty or contained, return the first match's
target_profile. -/
def claimEvaluate : List ClaimRule → ActiveWindow → String → Option Nat
  | [], _, _ => none
  | r :: rest, window, app_name =>
    if r.enabled && claimPat r.process_name window.process_name
        && claimPat r.title window.title && claimPat r.app_name app_name then
      some r.target_profile
    else claimEvaluate rest window app_name

/-- A window context with all fields empty. -/
def ctxEmpty : ActiveWindow := ⟨"", ""⟩

/-- An environment in which every external interaction succeeds: a window is
available, the device opens, and the write and follow-up read succeed. -/
def fullEnv : Env := ⟨some ctxEmpty, none, true, true, false⟩

/-- An environment in which the device cannot be opened (device absent). -/
def absentEnv : Env := ⟨some ctxEmpty, none, false, true, false⟩

/-- A config whose single enabled rule matches every context (all patterns
empty) and switches to profile 3. -/
def cfgCatchAll : JValue :=
  .obj [("rules_list", .arr
    [.obj [("enabled", .bool true), ("app_name", .str ""), ("title", .str ""),
           ("switch_to", .num 3)]])]

/-- An environment in which the device opens but the write syscall fails. -/
def failWriteEnv : Env := ⟨some ctxEmpty, none, true, false, false⟩

/-- The window context of the spec's worked example, matching the "Code"
rule. -/
def wCode : ActiveWindow := ⟨"Visual Studio Code", "code"⟩

/-- A window context matching only a catch-all rule. -/
def wTerm : ActiveWindow := ⟨"Terminal", "bash"⟩

/-- A fully successful environment whose active window is wCode. -/
def envCode : Env := ⟨some wCode, some "code", true, true, false⟩

/-- A fully successful environment whose active window is wTerm. -/
def envTerm : Env := ⟨some wTerm, some "bash", true, true, false⟩

/-- The spec's worked-example config: a "Code" title rule to profile 2
followed by a catch-all rule to profile 1. -/
def cfgTwoRules : JValue :=
  .obj [("rules_list", .arr
    [.obj [("enabled", .bool true), ("title", .str "Code"),
           ("app_name", .str ""), ("switch_to", .num 2)],
     .obj [("enabled", .bool true), ("title", .str ""),
           ("app_name", .str ""), ("switch_to", .num 1)]])]

/-- The parsed form of cfgTwoRules. -/
def rulesTwo : List Rule :=
  [⟨true, "", "Code", "", 2⟩, ⟨true, "", "", "", 1⟩]

/-- A config whose single rule omits both the process_name and the app_name
keys and has an empty title pattern: under claim C1's wording all three
patterns are absent or empty, so the rule matches everything. -/
def cfgNoApp : JValue :=
  .obj [("rules_list", .arr
    [.obj [("enabled", .bool true), ("title", .str ""), ("switch_to", .num 7)]])]

/-- The same rule in claim C1's own vocabulary. -/
def rulesNoApp : List ClaimRule := [⟨true, none, some "", none, 7⟩]

/-- A config whose single enabled catch-all rule targets profile 40, outside
the device's 1..31 range but inside u8. -/
def cfgOutOfRange : JValue :=
  .obj [("rules_list", .arr
    [.obj [("enabled", .bool true), ("app_name", .str ""), ("title", .str ""),
           ("switch_to", .num 40)]])]

/-- The rules of cfgCatchAll preceded by a global autoswitch_enabled = false
flag. -/
def cfgAutoOff : JValue :=
  .obj [("autoswitch_enabled", .bool false),
        ("rules_list", .arr
          [.obj [("enabled", .bool true), ("app_name", .str ""), ("title", .str ""),
                 ("switch_to", .num 3)]])]

/-- An info environment: product string available, serial query failing,
and an info reply whose bytes 3, 4, 5 are 1, 2, 3. -/
def infoEnv0 : InfoEnv :=
  ⟨.ok (some "duckyPad"), .error (), .ok (some [0, 0, 0, 1, 2, 3])⟩

/-- Every replicate entry in range is the replicated value. -/
theorem replicate_getElem_eq (a : Nat) : ∀ (n k : Nat), k < n →
    (List.replicate n a)[k]? = some a := by
  intro n
  induction n with
  | zero => intro k hk; exact absurd hk (by omega)
  | succ n ih =>
    intro k hk
    cases k with
    | zero => rw [List.replicate_succ]; simp
    | succ k =>
      rw [List.replicate_succ, List.getElem?_cons_succ]
      exact ih k (by omega)

/-- C4: for every profile id p in 1..31, goto_profile passes exactly one
frame to the transport, and that frame is 64 bytes with byte 0 = 0x05,
byte 2 = 0x01, byte 3 = p (the little-endian encoding of p, as p < 256) and
every other byte zero; for p = 5 the frame is 0x05,0x00,0x01,0x05 followed by
60 zero bytes. -/
theorem c4_frame_encoding (env : Env) (p : Nat) (h1 : 1 ≤ p) (h2 : p ≤ 31) :
    (goto_profile env p).2 = [gotoFrame p] ∧
    gotoFrame p = 0x05 :: 0x00 :: 0x01 :: p :: List.replicate 60 0 ∧
    (gotoFrame p).length = 64 ∧
    (gotoFrame p)[0]? = some 0x05 ∧
    (gotoFrame p)[1]? = some 0 ∧
    (gotoFrame p)[2]? = some 0x01 ∧
    (gotoFrame p)[3]? = some p ∧
    (∀ i, 4 ≤ i → i < 64 → (gotoFrame p)[i]? = some 0) ∧
    gotoFrame 5 = 0x05 :: 0x00 :: 0x01 :: 0x05 :: List.replicate 60 0 := by
  have hg : gotoFrame p = 0x05 :: 0x00 :: 0x01 :: p :: List.replicate 60 0 := rfl
  refine ⟨?_, hg, ?_, ?_, ?_, ?_, ?_, ?_, rfl⟩
  · cases hw : env.write_ok <;> cases hr : env.read_err <;>
      simp [goto_profile, h1, h2, hw, hr]
  · rw [hg]; simp
  · rw [hg]; rfl
  · rw [hg]; rfl
  · rw [hg]; rfl
  · rw [hg]; rfl
  · intro i h4 h64
    obtain ⟨k, rfl⟩ : ∃ k, i = k + 4 := ⟨i - 4, by omega⟩
    rw [hg, show k + 4 = (((k + 1) + 1) + 1) + 1 by omega]
    simp only [List.getElem?_cons_succ]
    exact replicate_getElem_eq 0 60 k (by omega)

/-- C4 witness: the theorem instantiated at profile 5. -/
theorem c4_witness :
    (1 ≤ 5 ∧ 5 ≤ 31) ∧ (goto_profile fullEnv 5).2 = [gotoFrame 5] :=
  ⟨by decide, (c4_frame_encoding fullEnv 5 (by decide) (by decide)).1⟩

/-- C5: for every profile id outside 1..31, goto_profile panics on its
assertion before constructing a frame or touching the transport: no frame is
passed to device.write. -/
theorem c5_reject_out_of_range (env : Env) (p : Nat) (h : p < 1 ∨ 31 < p) :
    goto_profile env p =
      (.error "assertion failed: profile >= 1 && profile <= 31", []) := by
  have hc : ¬(1 ≤ p ∧ p ≤ 31) := by omega
  simp [goto_profile, hc]

/-- C5 witness: the theorem instantiated at the boundary inputs 0 and 32. -/
theorem c5_witness :
    goto_profile fullEnv 0 =
      (.error "assertion failed: profile >= 1 && profile <= 31", []) ∧
    goto_profile fullEnv 32 =
      (.error "assertion failed: profile >= 1 && profile <= 31", []) :=
  ⟨c5_reject_out_of_range fullEnv 0 (Or.inl (by decide)),
   c5_reject_out_of_range fullEnv 32 (Or.inr (by decide))⟩

/-- The inbound buffer always has exactly 32 bytes. -/
theorem read_buf_length (data : List Nat) :
    (read_buf data).length = DUCKYPAD_TO_PC_HID_BUF_SIZE := by
  have h32 : DUCKYPAD_TO_PC_HID_BUF_SIZE = 32 := rfl
  simp [read_buf, h32]
  omega

/-- Once the ceiling has elapsed, the read loop returns Ok(None). -/
theorem hid_read_loop_timeout (dev : Nat → PollRes) (extra : Nat → Nat) {t : Nat}
    (h : ¬ t ≤ 5000) (i : Nat) : hid_read_loop dev extra t i = .ok none := by
  rw [hid_read_loop.eq_def]
  simp [h]

/-- A failing poll inside the window makes the read loop return the error. -/
theorem hid_read_loop_err (dev : Nat → PollRes) (extra : Nat → Nat) {t i : Nat}
    (h : t ≤ 5000) (hd : dev i = .readErr) :
    hid_read_loop dev extra t i = .error () := by
  rw [hid_read_loop.eq_def]
  simp [h, hd]

/-- A poll delivering data inside the window makes the read loop return the
filled 32-byte buffer. -/
theorem hid_read_loop_data (dev : Nat → PollRes) (extra : Nat → Nat) {t i : Nat}
    {data : List Nat} (h : t ≤ 5000) (hd : dev i = .bytes data)
    (hl : 0 < min data.length DUCKYPAD_TO_PC_HID_BUF_SIZE) :
    hid_read_loop dev extra t i = .ok (some (read_buf data)) := by
  rw [hid_read_loop.eq_def]
  simp [h, hd, hl]

/-- An empty poll inside the window makes the read loop sleep 10 ms and poll
again. -/
theorem hid_read_loop_step (dev : Nat → PollRes) (extra : Nat → Nat) {t i : Nat}
    {data : List Nat} (h : t ≤ 5000) (hd : dev i = .bytes data)
    (hl : ¬ 0 < min data.length DUCKYPAD_TO_PC_HID_BUF_SIZE) :
    hid_read_loop dev extra t i = hid_read_loop dev extra (t + 10 + extra i) (i + 1) := by
  conv_lhs => rw [hid_read_loop.eq_def]
  simp [h, hd, hl]

/-- The read loop always lands in one of three outcomes: a delivered frame,
a propagated read error, or a ceiling timeout. -/
theorem hid_read_loop_cases (dev : Nat → PollRes) (extra : Nat → Nat) :
    ∀ (n t i : Nat), 5001 - t ≤ n →
    (∃ j data, i ≤ j ∧ dev j = .bytes data ∧ 0 < data.length ∧
      hid_read_loop dev extra t i = .ok (some (read_buf data))) ∨
    (∃ j, i ≤ j ∧ dev j = .readErr ∧ hid_read_loop dev extra t i = .error ()) ∨
    hid_read_loop dev extra t i = .ok none := by
  intro n
  induction n with
  | zero =>
    intro t i hn
    exact Or.inr (Or.inr (hid_read_loop_timeout dev extra (by omega) i))
  | succ n ih =>
    intro t i hn
    by_cases ht : t ≤ 5000
    · cases hdev : dev i with
      | readErr => exact Or.inr (Or.inl ⟨i, le_refl i, hdev, hid_read_loop_err dev extra ht hdev⟩)
      | bytes data =>
        by_cases hl : 0 < min data.length DUCKYPAD_TO_PC_HID_BUF_SIZE
        · refine Or.inl ⟨i, data, le_refl i, hdev, ?_, hid_read_loop_data dev extra ht hdev hl⟩
          have h32 : DUCKYPAD_TO_PC_HID_BUF_SIZE = 32 := rfl
          rw [h32] at hl
          omega
        · rw [hid_read_loop_step dev extra ht hdev hl]
          rcases ih (t + 10 + extra i) (i + 1) (by omega) with
            ⟨j, d, hj, hd, hdl, hv⟩ | ⟨j, hj, hd, hv⟩ | hv
          · exact Or.inl ⟨j, d, by omega, hd, hdl, hv⟩
          · exact Or.inr (Or.inl ⟨j, by omega, hd, hv⟩)
          · exact Or.inr (Or.inr hv)
    · exact Or.inr (Or.inr (hid_read_loop_timeout dev extra ht i))

/-- If the device never delivers data and never errors, the loop times
out with Ok(None). -/
theorem hid_read_loop_allEmpty (dev : Nat → PollRes) (extra : Nat → Nat)
    (hall : ∀ j, dev j = .bytes []) :
    ∀ (n t i : Nat), 5001 - t ≤ n → hid_read_loop dev extra t i = .ok none := by
  intro n
  induction n with
  | zero => intro t i hn; exact hid_read_loop_timeout dev extra (by omega) i
  | succ n ih =>
    intro t i hn
    by_cases ht : t ≤ 5000
    · rw [hid_read_loop_step dev extra ht (hall i) (by simp)]
      exact ih _ _ (by omega)
    · exact hid_read_loop_timeout dev extra ht i

/-- C8: the transport read is a bounded wait that always terminates (it is a
total function) with one of exactly three outcomes: Ok(Some(frame)) with a
32-byte frame once a poll delivers data, the propagated error when a poll
fails, and Ok(None) when only empty polls happen until the 5-second ceiling
elapses — a timeout is not an error. -/
theorem c8_read_bounded (dev : Nat → PollRes) (extra : Nat → Nat) :
    ((∃ f, hid_read dev extra = .ok (some f) ∧ f.length = DUCKYPAD_TO_PC_HID_BUF_SIZE) ∨
      hid_read dev extra = .error () ∨ hid_read dev extra = .ok none) ∧
    ((∀ j, dev j = .bytes []) → hid_read dev extra = .ok none) ∧
    (∀ f, hid_read dev extra = .ok (some f) →
      ∃ j data, dev j = .bytes data ∧ 0 < data.length ∧ f = read_buf data) ∧
    (hid_read dev extra = .error () → ∃ j, dev j = .readErr) := by
  have hm := hid_read_loop_cases dev extra 5001 0 0 (by omega)
  refine ⟨?_, ?_, ?_, ?_⟩
  · rcases hm with ⟨j, d, _, _, _, hv⟩ | ⟨j, _, _, hv⟩ | hv
    · exact Or.inl ⟨read_buf d, hv, read_buf_length d⟩
    · exact Or.inr (Or.inl hv)
    · exact Or.inr (Or.inr hv)
  · intro hall
    exact hid_read_loop_allEmpty dev extra hall 5001 0 0 (by omega)
  · intro f hf
    have hf' : hid_read_loop dev extra 0 0 = Except.ok (some f) := hf
    rcases hm with ⟨j, d, _, hd, hdl, hv⟩ | ⟨j, _, _, hv⟩ | hv
    · rw [hf'] at hv
      obtain rfl : f = read_buf d := by
        have := Except.ok.inj hv
        exact Option.some.inj this
      exact ⟨j, d, hd, hdl, rfl⟩
    · rw [hf'] at hv; cases hv
    · rw [hf'] at hv
      cases Except.ok.inj hv
  · intro hf
    have hf' : hid_read_loop dev extra 0 0 = Except.error () := hf
    rcases hm with ⟨j, d, _, hd, hdl, hv⟩ | ⟨j, _, hd, hv⟩ | hv
    · rw [hf'] at hv; cases hv
    · exact ⟨j, hd⟩
    · rw [hf'] at hv; simp at hv

/-- C8 witness: a device that keeps answering with no data produces a clean
Ok(None) timeout. -/
theorem c8_witness :
    hid_read (fun _ => PollRes.bytes []) (fun _ => 0) = .ok none :=
  (c8_read_bounded (fun _ => PollRes.bytes []) (fun _ => 0)).2.1 (fun _ => rfl)

/-- C9: hid::info never propagates an underlying error: it always returns a
DeviceInfo whose fields independently fall back to "unknown" — model and
serial are the respective string-query results or "unknown" on failure or
absence, and firmware is decoded from reply bytes 3, 4, 5 as "a.b.c" on a
reply and is "unknown" on timeout or transport failure. -/
theorem c9_info_fallbacks (env : InfoEnv) :
    ((env.product_string = .error () ∨ env.product_string = .ok none) →
      (hid_info env).model = "unknown") ∧
    (∀ s, env.product_string = .ok (some s) → (hid_info env).model = s) ∧
    ((env.serial_string = .error () ∨ env.serial_string = .ok none) →
      (hid_info env).serial = "unknown") ∧
    (∀ s, env.serial_string = .ok (some s) → (hid_info env).serial = s) ∧
    ((env.reply = .error () ∨ env.reply = .ok none) →
      (hid_info env).firmware = "unknown") ∧
    (∀ b, env.reply = .ok (some b) →
      (hid_info env).firmware = toString (b.getD 3 0) ++ "." ++ toString (b.getD 4 0)
        ++ "." ++ toString (b.getD 5 0)) := by
  refine ⟨?_, ?_, ?_, ?_, ?_, ?_⟩
  · rintro (h | h) <;> simp [hid_info, unknownFallback, h]
  · intro s h; simp [hid_info, unknownFallback, h]
  · rintro (h | h) <;> simp [hid_info, unknownFallback, h]
  · intro s h; simp [hid_info, unknownFallback, h]
  · rintro (h | h) <;> simp [hid_info, h]
  · intro b h; simp [hid_info, h]

/-- C9 witness: the theorem instantiated at a concrete environment in which
the three queries succeed, fail, and reply respectively. -/
theorem c9_witness :
    (hid_info infoEnv0).model = "duckyPad" ∧ (hid_info infoEnv0).serial = "unknown" ∧
    (hid_info infoEnv0).firmware = "1.2.3" := by
  refine ⟨(c9_info_fallbacks infoEnv0).2.1 "duckyPad" rfl,
    (c9_info_fallbacks infoEnv0).2.2.1 (Or.inl rfl), ?_⟩
  have h := (c9_info_fallbacks infoEnv0).2.2.2.2.2 [0, 0, 0, 1, 2, 3] rfl
  exact h.trans (by decide)

/-- Components of an equation between result triples. -/
theorem tuple3_inj {α β γ : Type _} {a a' : α} {b b' : β} {c c' : γ}
    (h : (a, b, c) = (a', b', c')) : a = a' ∧ b = b' ∧ c = c' := by
  cases h; exact ⟨rfl, rfl, rfl⟩

/-- switch_profile with no candidate or an unchanged candidate returns
everything unchanged and performs no interaction. -/
theorem switch_profile_skip (env : Env) (config : JValue) (prev : Option Nat)
    (cb : Option (List String)) (w : ActiveWindow) (hw : env.window = some w)
    (hc : next_profile config w (env.app_name.getD "unknown") = .ok none ∨
      ∃ q, prev = some q ∧
        next_profile config w (env.app_name.getD "unknown") = .ok (some q)) :
    switch_profile env config prev cb = (.ok prev, cb, ⟨0, [], []⟩) := by
  rcases hc with hc | ⟨q, rfl, hc⟩ <;> simp [switch_profile, hw, hc]

/-- switch_profile on the fully successful path with a callback configured:
state advances, the callback Command accumulates its own arguments, and the
spawned child receives the accumulated list. -/
theorem switch_profile_success_some (env : Env) (config : JValue) (prev : Option Nat)
    (args : List String) (w : ActiveWindow) (c : Nat) (hw : env.window = some w)
    (hc : next_profile config w (env.app_name.getD "unknown") = .ok (some c))
    (hne : prev ≠ some c) (hinit : env.init_ok = true) (hwok : env.write_ok = true)
    (hre : env.read_err = false) (h1 : 1 ≤ c) (h2 : c ≤ 31) :
    switch_profile env config prev (some args) =
      (.ok (some c), some (run_callback args c w (env.app_name.getD "unknown")),
       ⟨1, [gotoFrame c], [run_callback args c w (env.app_name.getD "unknown")]⟩) := by
  have hg : goto_profile env c = (.ok (.ok ()), [gotoFrame c]) := by
    simp [goto_profile, h1, h2, hwok, hre]
  simp [switch_profile, hw, hc, hne, hinit, hg]

/-- switch_profile on the fully successful path without a callback. -/
theorem switch_profile_success_none (env : Env) (config : JValue) (prev : Option Nat)
    (w : ActiveWindow) (c : Nat) (hw : env.window = some w)
    (hc : next_profile config w (env.app_name.getD "unknown") = .ok (some c))
    (hne : prev ≠ some c) (hinit : env.init_ok = true) (hwok : env.write_ok = true)
    (hre : env.read_err = false) (h1 : 1 ≤ c) (h2 : c ≤ 31) :
    switch_profile env config prev none =
      (.ok (some c), none, ⟨1, [gotoFrame c], []⟩) := by
  have hg : goto_profile env c = (.ok (.ok ()), [gotoFrame c]) := by
    simp [goto_profile, h1, h2, hwok, hre]
  simp [switch_profile, hw, hc, hne, hinit, hg]

/-- switch_profile when the device cannot be opened: one failed open, no
frame written, everything else unchanged. -/
theorem switch_profile_no_init (env : Env) (config : JValue) (prev : Option Nat)
    (cb : Option (List String)) (w : ActiveWindow) (c : Nat) (hw : env.window = some w)
    (hc : next_profile config w (env.app_name.getD "unknown") = .ok (some c))
    (hne : prev ≠ some c) (hinit : env.init_ok = false) :
    switch_profile env config prev cb = (.ok prev, cb, ⟨1, [], []⟩) := by
  simp [switch_profile, hw, hc, hne, hinit]

/-- switch_profile when the device opens but the write or the follow-up read
fails: the frame is passed to the transport but the state stays unchanged. -/
theorem switch_profile_write_fail (env : Env) (config : JValue) (prev : Option Nat)
    (cb : Option (List String)) (w : ActiveWindow) (c : Nat) (hw : env.window = some w)
    (hc : next_profile config w (env.app_name.getD "unknown") = .ok (some c))
    (hne : prev ≠ some c) (hinit : env.init_ok = true) (hrange : 1 ≤ c ∧ c ≤ 31)
    (hfail : env.write_ok = false ∨ env.read_err = true) :
    switch_profile env config prev cb = (.ok prev, cb, ⟨1, [gotoFrame c], []⟩) := by
  have hg : goto_profile env c = (.ok (.error ()), [gotoFrame c]) := by
    rcases hfail with hf | hf
    · simp [goto_profile, hrange, hf]
    · cases hwk : env.write_ok <;> simp [goto_profile, hrange, hwk, hf]
  simp [switch_profile, hw, hc, hne, hinit, hg]

/-- switch_profile when the candidate is outside 1..31 and the device opens:
goto_profile's assertion panics before any frame is written. -/
theorem switch_profile_assert_panic (env : Env) (config : JValue) (prev : Option Nat)
    (cb : Option (List String)) (w : ActiveWindow) (c : Nat) (hw : env.window = some w)
    (hc : next_profile config w (env.app_name.getD "unknown") = .ok (some c))
    (hne : prev ≠ some c) (hinit : env.init_ok = true) (hrange : ¬(1 ≤ c ∧ c ≤ 31)) :
    switch_profile env config prev cb =
      (.error "assertion failed: profile >= 1 && profile <= 31", cb, ⟨1, [], []⟩) := by
  have hg : goto_profile env c =
      (.error "assertion failed: profile >= 1 && profile <= 31", []) := by
    simp [goto_profile, hrange]
  simp [switch_profile, hw, hc, hne, hinit, hg]

/-- C2: when rule evaluation yields no candidate, or a candidate equal to the
last applied profile, switch_profile returns everything unchanged with no
device interaction at all (zero opens, zero writes); and two consecutive
ticks yielding the same in-range candidate cause exactly one device write. -/
theorem c2_no_interaction_and_debounce :
    (∀ (env : Env) (config : JValue) (prev : Option Nat) (cb : Option (List String))
      (w : ActiveWindow), env.window = some w →
      (next_profile config w (env.app_name.getD "unknown") = .ok none ∨
        ∃ q, prev = some q ∧
          next_profile config w (env.app_name.getD "unknown") = .ok (some q)) →
      switch_profile env config prev cb = (.ok prev, cb, ⟨0, [], []⟩)) ∧
    (∀ (env1 env2 : Env) (config : JValue) (cb : Option (List String))
      (w1 w2 : ActiveWindow) (c : Nat) (prev : Option Nat),
      env1.window = some w1 → env2.window = some w2 →
      env1.init_ok = true → env1.write_ok = true → env1.read_err = false →
      next_profile config w1 (env1.app_name.getD "unknown") = .ok (some c) →
      next_profile config w2 (env2.app_name.getD "unknown") = .ok (some c) →
      prev ≠ some c → 1 ≤ c → c ≤ 31 →
      ∃ cb1 log1, switch_profile env1 config prev cb = (.ok (some c), cb1, log1) ∧
        log1.writes.length = 1 ∧
        switch_profile env2 config (some c) cb1 = (.ok (some c), cb1, ⟨0, [], []⟩)) := by
  constructor
  · intro env config prev cb w hw hc
    exact switch_profile_skip env config prev cb w hw hc
  · intro env1 env2 config cb w1 w2 c prev hw1 hw2 hinit hwok hre hc1 hc2 hne h1 h2
    cases cb with
    | none =>
      refine ⟨none, ⟨1, [gotoFrame c], []⟩,
        switch_profile_success_none env1 config prev w1 c hw1 hc1 hne hinit hwok hre h1 h2,
        rfl, ?_⟩
      exact switch_profile_skip env2 config (some c) none w2 hw2 (Or.inr ⟨c, rfl, hc2⟩)
    | some args =>
      refine ⟨some (run_callback args c w1 (env1.app_name.getD "unknown")),
        ⟨1, [gotoFrame c], [run_callback args c w1 (env1.app_name.getD "unknown")]⟩,
        switch_profile_success_some env1 config prev args w1 c hw1 hc1 hne hinit hwok hre h1 h2,
        rfl, ?_⟩
      exact switch_profile_skip env2 config (some c) _ w2 hw2 (Or.inr ⟨c, rfl, hc2⟩)

/-- C2 witness: the theorem instantiated at the catch-all config, first with
an unchanged candidate, then for two consecutive ticks from a fresh state. -/
theorem c2_witness :
    switch_profile fullEnv cfgCatchAll (some 3) none = (.ok (some 3), none, ⟨0, [], []⟩) ∧
    ∃ cb1 log1, switch_profile fullEnv cfgCatchAll none none = (.ok (some 3), cb1, log1) ∧
      log1.writes.length = 1 ∧
      switch_profile fullEnv cfgCatchAll (some 3) cb1 = (.ok (some 3), cb1, ⟨0, [], []⟩) :=
  ⟨c2_no_interaction_and_debounce.1 fullEnv cfgCatchAll (some 3) none ctxEmpty rfl
      (Or.inr ⟨3, rfl, rfl⟩),
    c2_no_interaction_and_debounce.2 fullEnv fullEnv cfgCatchAll none ctxEmpty ctxEmpty 3
      none rfl rfl rfl rfl rfl rfl rfl (by decide) (by decide) (by decide)⟩

/-- C3: last_profile is mutated only after a confirmed successful device
write.  First part: whenever opening the transport or the write/read behind
goto_profile fails and the tick still returns (does not panic), the returned
profile and callback state are unchanged, and re-running the tick with the
returned state reproduces the identical attempt.  Second part: any tick that
returns a changed profile had a working open, write and read, and passed a
frame to the transport. -/
theorem c3_state_only_after_success :
    (∀ (env : Env) (config : JValue) (prev : Option Nat) (cb : Option (List String))
      (r : Option Nat) (cb' : Option (List String)) (log : SwitchLog),
      (env.init_ok = false ∨ env.write_ok = false ∨ env.read_err = true) →
      switch_profile env config prev cb = (.ok r, cb', log) →
      r = prev ∧ cb' = cb ∧
        switch_profile env config r cb' = (.ok r, cb', log)) ∧
    (∀ (env : Env) (config : JValue) (prev : Option Nat) (cb : Option (List String))
      (r : Option Nat) (cb' : Option (List String)) (log : SwitchLog),
      switch_profile env config prev cb = (.ok r, cb', log) →
      r ≠ prev →
      env.init_ok = true ∧ env.write_ok = true ∧ env.read_err = false ∧
        log.writes ≠ []) := by
  constructor
  · intro env config prev cb r cb' log hfail heq
    have main : r = prev ∧ cb' = cb := by
      cases hw : env.window with
      | none =>
        have hval : switch_profile env config prev cb = (.ok prev, cb, ⟨0, [], []⟩) := by
          simp [switch_profile, hw]
        rw [hval] at heq
        obtain ⟨h1, h2, h3⟩ := tuple3_inj heq
        exact ⟨(Except.ok.inj h1).symm, h2.symm⟩
      | some w =>
        cases hnp : next_profile config w (env.app_name.getD "unknown") with
        | error e =>
          have hval : switch_profile env config prev cb = (.error e, cb, ⟨0, [], []⟩) := by
            simp [switch_profile, hw, hnp]
          rw [hval] at heq
          obtain ⟨h1, _, _⟩ := tuple3_inj heq
          simp at h1
        | ok oc =>
          cases oc with
          | none =>
            have hval := switch_profile_skip env config prev cb w hw (Or.inl hnp)
            rw [hval] at heq
            obtain ⟨h1, h2, h3⟩ := tuple3_inj heq
            exact ⟨(Except.ok.inj h1).symm, h2.symm⟩
          | some c =>
            by_cases hne : prev = some c
            · have hval := switch_profile_skip env config prev cb w hw (Or.inr ⟨c, hne, hnp⟩)
              rw [hval] at heq
              obtain ⟨h1, h2, h3⟩ := tuple3_inj heq
              exact ⟨(Except.ok.inj h1).symm, h2.symm⟩
            · cases hi : env.init_ok with
              | false =>
                have hval := switch_profile_no_init env config prev cb w c hw hnp hne hi
                rw [hval] at heq
                obtain ⟨h1, h2, h3⟩ := tuple3_inj heq
                exact ⟨(Except.ok.inj h1).symm, h2.symm⟩
              | true =>
                have hfail' : env.write_ok = false ∨ env.read_err = true := by
                  rcases hfail with h | h | h
                  · rw [hi] at h; cases h
                  · exact Or.inl h
                  · exact Or.inr h
                by_cases hrange : 1 ≤ c ∧ c ≤ 31
                · have hval := switch_profile_write_fail env config prev cb w c hw hnp hne
                    hi hrange hfail'
                  rw [hval] at heq
                  obtain ⟨h1, h2, h3⟩ := tuple3_inj heq
                  exact ⟨(Except.ok.inj h1).symm, h2.symm⟩
                · have hval := switch_profile_assert_panic env config prev cb w c hw hnp hne
                    hi hrange
                  rw [hval] at heq
                  obtain ⟨h1, _, _⟩ := tuple3_inj heq
                  simp at h1
    obtain ⟨hr, hcb⟩ := main
    subst hr
    subst hcb
    exact ⟨rfl, rfl, heq⟩
  · intro env config prev cb r cb' log heq hrneq
    cases hw : env.window with
    | none =>
      have hval : switch_profile env config prev cb = (.ok prev, cb, ⟨0, [], []⟩) := by
        simp [switch_profile, hw]
      rw [hval] at heq
      obtain ⟨h1, _, _⟩ := tuple3_inj heq
      exact absurd (Except.ok.inj h1).symm hrneq
    | some w =>
      cases hnp : next_profile config w (env.app_name.getD "unknown") with
      | error e =>
        have hval : switch_profile env config prev cb = (.error e, cb, ⟨0, [], []⟩) := by
          simp [switch_profile, hw, hnp]
        rw [hval] at heq
        obtain ⟨h1, _, _⟩ := tuple3_inj heq
        simp at h1
      | ok oc =>
        cases oc with
        | none =>
          have hval := switch_profile_skip env config prev cb w hw (Or.inl hnp)
          rw [hval] at heq
          obtain ⟨h1, _, _⟩ := tuple3_inj heq
          exact absurd (Except.ok.inj h1).symm hrneq
        | some c =>
          by_cases hne : prev = some c
          · have hval := switch_profile_skip env config prev cb w hw (Or.inr ⟨c, hne, hnp⟩)
            rw [hval] at heq
            obtain ⟨h1, _, _⟩ := tuple3_inj heq
            exact absurd (Except.ok.inj h1).symm hrneq
          · cases hi : env.init_ok with
            | false =>
              have hval := switch_profile_no_init env config prev cb w c hw hnp hne hi
              rw [hval] at heq
              obtain ⟨h1, _, _⟩ := tuple3_inj heq
              exact absurd (Except.ok.inj h1).symm hrneq
            | true =>
              by_cases hrange : 1 ≤ c ∧ c ≤ 31
              · cases hwk : env.write_ok with
                | false =>
                  have hval := switch_profile_write_fail env config prev cb w c hw hnp hne
                    hi hrange (Or.inl hwk)
                  rw [hval] at heq
                  obtain ⟨h1, _, _⟩ := tuple3_inj heq
                  exact absurd (Except.ok.inj h1).symm hrneq
                | true =>
                  cases hrd : env.read_err with
                  | true =>
                    have hval := switch_profile_write_fail env config prev cb w c hw hnp hne
                      hi hrange (Or.inr hrd)
                    rw [hval] at heq
                    obtain ⟨h1, _, _⟩ := tuple3_inj heq
                    exact absurd (Except.ok.inj h1).symm hrneq
                  | false =>
                    cases cb with
                    | none =>
                      have hval := switch_profile_success_none env config prev w c hw hnp hne
                        hi hwk hrd hrange.1 hrange.2
                      rw [hval] at heq
                      obtain ⟨_, _, h3⟩ := tuple3_inj heq
                      refine ⟨rfl, rfl, rfl, ?_⟩
                      rw [← h3]
                      simp
                    | some args =>
                      have hval := switch_profile_success_some env config prev args w c hw hnp hne
                        hi hwk hrd hrange.1 hrange.2
                      rw [hval] at heq
                      obtain ⟨_, _, h3⟩ := tuple3_inj heq
                      refine ⟨rfl, rfl, rfl, ?_⟩
                      rw [← h3]
                      simp
              · have hval := switch_profile_assert_panic env config prev cb w c hw hnp hne
                  hi hrange
                rw [hval] at heq
                obtain ⟨h1, _, _⟩ := tuple3_inj heq
                simp at h1

/-- C3 witness: the theorem instantiated with a device-absent environment and
with a fully successful tick. -/
theorem c3_witness :
    ((none : Option Nat) = none ∧ (none : Option (List String)) = none ∧
      switch_profile absentEnv cfgCatchAll none none = (.ok none, none, ⟨1, [], []⟩)) ∧
    (fullEnv.init_ok = true ∧ fullEnv.write_ok = true ∧ fullEnv.read_err = false ∧
      (SwitchLog.mk 1 [gotoFrame 3] []).writes ≠ []) :=
  ⟨c3_state_only_after_success.1 absentEnv cfgCatchAll none none none none ⟨1, [], []⟩
      (Or.inl rfl) rfl,
   c3_state_only_after_success.2 fullEnv cfgCatchAll none none (some 3) none
      ⟨1, [gotoFrame 3], []⟩ rfl (by simp)⟩

/-- On a rules_list whose entries all parse, next_profile_rules computes
exactly the first-match evaluation of the parsed rules. -/
theorem next_profile_rules_eval (w : ActiveWindow) (app : String) :
    ∀ (items : List JValue) (rules : List Rule),
      parseRules items = some rules →
      next_profile_rules items w app = .ok (evalRules rules w app) := by
  intro items
  induction items with
  | nil =>
    intro rules h
    simp only [parseRules, Option.some.injEq] at h
    subst h
    rfl
  | cons item rest ih =>
    intro rules h
    simp only [parseRules] at h
    cases hr : ruleOfJson item with
    | none => rw [hr] at h; cases h
    | some r =>
      rw [hr] at h
      cases hp : parseRules rest with
      | none => rw [hp] at h; cases h
      | some rs =>
        rw [hp] at h
        obtain rfl := Option.some.inj h
        cases item with
        | obj fields =>
          cases he : getEnabled (JValue.obj fields) with
          | error e => simp [ruleOfJson, he, Except.toOption] at hr
          | ok en =>
            cases hpn : confProcessName (JValue.obj fields) with
            | error e => simp [ruleOfJson, he, hpn, Except.toOption] at hr
            | ok pn =>
              cases ht : confTitle (JValue.obj fields) with
              | error e => simp [ruleOfJson, he, hpn, ht, Except.toOption] at hr
              | ok t =>
                cases ha : confAppName (JValue.obj fields) with
                | error e => simp [ruleOfJson, he, hpn, ht, ha, Except.toOption] at hr
                | ok an =>
                  cases hs : confSwitchTo (JValue.obj fields) with
                  | error e => simp [ruleOfJson, he, hpn, ht, ha, hs, Except.toOption] at hr
                  | ok st =>
                    have hr' : Rule.mk en pn t an st = r := by
                      simpa [ruleOfJson, he, hpn, ht, ha, hs, Except.toOption] using hr
                    subst hr'
                    cases en with
                    | false =>
                      simp only [next_profile_rules, he, evalRules, ruleMatches,
                        Bool.false_and, if_false]
                      exact ih rs hp
                    | true =>
                      by_cases hcond :
                        ((pn.length == 0 || strContains w.process_name pn)
                          && (t.length == 0 || strContains w.title t)
                          && (an.length == 0 || strContains app an)) = true
                      · simp only [next_profile_rules, he, hpn, ht, ha, hcond, if_true,
                          hs, evalRules, ruleMatches, Bool.true_and]
                      · simp only [next_profile_rules, he, hpn, ht, ha,
                          evalRules, ruleMatches, Bool.true_and]
                        rw [if_neg hcond, if_neg hcond]
                        exact ih rs hp
        | null => simp [ruleOfJson] at hr
        | bool b => simp [ruleOfJson] at hr
        | num n => simp [ruleOfJson] at hr
        | str s => simp [ruleOfJson] at hr
        | arr xs => simp [ruleOfJson] at hr

/-- C1 counterexample: the claim says a rule whose process_name, title and
app_name patterns are each absent or empty matches every context, so
evaluating rulesNoApp (one enabled rule, title pattern empty, process_name
and app_name keys absent, target 7) should return profile 7; the code instead
panics on the missing app_name key, because only process_name may be absent
in next_profile. -/
theorem c1_counterexample :
    claimEvaluate rulesNoApp ctxEmpty "" = some 7 ∧
    next_profile cfgNoApp ctxEmpty "" =
      .error "Config rule field \"app_name\" is missing!" :=
  ⟨rfl, rfl⟩

/-- C1 as amended: on configs whose rules_list entries are all well-formed
(enabled a bool; process_name absent or a string, with absent meaning the
empty pattern; a string title or, when the title key is absent, a string
window_title alias; a string app_name, which must be present; a switch_to
integer that fits in a u8), next_profile is exactly deterministic
first-match-wins evaluation: iterate in list order, skip disabled rules, an
enabled rule matches iff each of its three effective patterns is empty or
contained case-sensitively as a substring in the corresponding context field,
return the first match's target and none when no enabled rule matches. -/
theorem c1_amended_first_match (fields : List (String × JValue)) (items : List JValue)
    (rules : List Rule) (w : ActiveWindow) (app : String)
    (hf : lookupField fields "rules_list" = some (.arr items))
    (hp : parseRules items = some rules) :
    next_profile (.obj fields) w app = .ok (evalRules rules w app) := by
  simp only [next_profile, jget, hf, JValue.as_array]
  exact next_profile_rules_eval w app items rules hp

/-- C1 witness: the amended theorem instantiated at the spec's worked
example, which evaluates to profile 2 for the "Visual Studio Code" window. -/
theorem c1_amended_witness :
    parseRules
      [.obj [("enabled", .bool true), ("title", .str "Code"),
             ("app_name", .str ""), ("switch_to", .num 2)],
       .obj [("enabled", .bool true), ("title", .str ""),
             ("app_name", .str ""), ("switch_to", .num 1)]] = some rulesTwo ∧
    next_profile cfgTwoRules wCode "code" = .ok (evalRules rulesTwo wCode "code") ∧
    evalRules rulesTwo wCode "code" = some 2 :=
  ⟨rfl,
   c1_amended_first_match
     [("rules_list", .arr
       [.obj [("enabled", .bool true), ("title", .str "Code"),
              ("app_name", .str ""), ("switch_to", .num 2)],
        .obj [("enabled", .bool true), ("title", .str ""),
              ("app_name", .str ""), ("switch_to", .num 1)]])]
     [.obj [("enabled", .bool true), ("title", .str "Code"),
            ("app_name", .str ""), ("switch_to", .num 2)],
      .obj [("enabled", .bool true), ("title", .str ""),
            ("app_name", .str ""), ("switch_to", .num 1)]]
     rulesTwo wCode "code" rfl rfl,
   rfl⟩

/-- An object field with a key other than rules_list is invisible to
next_profile. -/
theorem next_profile_extra_field (k : String) (v : JValue)
    (fields : List (String × JValue)) (w : ActiveWindow) (app : String)
    (hk : ¬ k = "rules_list") :
    next_profile (.obj ((k, v) :: fields)) w app = next_profile (.obj fields) w app := by
  simp only [next_profile, jget, lookupField, hk, if_false]

/-- C6 counterexample: with a config carrying autoswitch_enabled = false and
an enabled catch-all rule, a tick from a fresh state still evaluates the
rules, opens the transport, writes the profile-3 frame and advances the
state, instead of returning the state unchanged with no device
interaction. -/
theorem c6_counterexample :
    switch_profile fullEnv cfgAutoOff none none =
      (.ok (some 3), none, ⟨1, [gotoFrame 3], []⟩) ∧
    ¬ switch_profile fullEnv cfgAutoOff none none = (.ok none, none, ⟨0, [], []⟩) := by
  refine ⟨rfl, fun h => ?_⟩
  rw [show switch_profile fullEnv cfgAutoOff none none =
    ((.ok (some 3) : Except String (Option Nat)), (none : Option (List String)),
      (⟨1, [gotoFrame 3], []⟩ : SwitchLog)) from rfl] at h
  obtain ⟨h1, _, _⟩ := tuple3_inj h
  exact absurd (Except.ok.inj h1) (by simp)

/-- C6 as amended: the code has no autoswitch_enabled handling at all — a
config field autoswitch_enabled = false is ignored, and the tick behaves
exactly as it would on the same config without that field. -/
theorem c6_amended_flag_ignored (env : Env) (prev : Option Nat)
    (cb : Option (List String)) (fields : List (String × JValue)) :
    switch_profile env (.obj (("autoswitch_enabled", .bool false) :: fields)) prev cb =
      switch_profile env (.obj fields) prev cb := by
  have hnp : ∀ w a, next_profile (.obj (("autoswitch_enabled", .bool false) :: fields)) w a
      = next_profile (.obj fields) w a :=
    fun w a => next_profile_extra_field _ _ fields w a (by decide)
  cases hw : env.window with
  | none => simp [switch_profile, hw]
  | some w => simp only [switch_profile, hw, hnp]

/-- A successfully read switch_to target always fits in a u8. -/
theorem confSwitchTo_le (item : JValue) (st : Nat) (h : confSwitchTo item = .ok st) :
    st ≤ 255 := by
  cases hj : jget item "switch_to" with
  | none => simp [confSwitchTo, hj] at h
  | some v =>
    cases hu : v.as_u64 with
    | none => simp [confSwitchTo, hj, hu] at h
    | some n =>
      simp only [confSwitchTo, hj, hu] at h
      split at h
      · rename_i hn
        obtain rfl := Except.ok.inj h
        exact hn
      · cases h

/-- Rule evaluation only ever returns profiles that fit in a u8; it applies
no range check beyond u8::try_from. -/
theorem next_profile_rules_le (w : ActiveWindow) (app : String) :
    ∀ (items : List JValue) (p : Nat),
      next_profile_rules items w app = .ok (some p) → p ≤ 255 := by
  intro items
  induction items with
  | nil => intro p h; simp [next_profile_rules] at h
  | cons item rest ih =>
    intro p h
    cases item with
    | obj fields =>
      cases he : getEnabled (JValue.obj fields) with
      | error e => simp [next_profile_rules, he] at h
      | ok en =>
        cases en with
        | false =>
          simp only [next_profile_rules, he] at h
          exact ih p h
        | true =>
          cases hpn : confProcessName (JValue.obj fields) with
          | error e => simp [next_profile_rules, he, hpn] at h
          | ok pn =>
            cases ht : confTitle (JValue.obj fields) with
            | error e => simp [next_profile_rules, he, hpn, ht] at h
            | ok t =>
              cases ha : confAppName (JValue.obj fields) with
              | error e => simp [next_profile_rules, he, hpn, ht, ha] at h
              | ok an =>
                simp only [next_profile_rules, he, hpn, ht, ha] at h
                split at h
                · cases hs : confSwitchTo (JValue.obj fields) with
                  | error e => simp [hs] at h
                  | ok st =>
                    obtain rfl : st = p := by simpa [hs] using h
                    exact confSwitchTo_le _ _ hs
                · exact ih p h
    | null => simp [next_profile_rules] at h
    | bool b => simp [next_profile_rules] at h
    | num n => simp [next_profile_rules] at h
    | str s => simp [next_profile_rules] at h
    | arr xs => simp [next_profile_rules] at h

/-- C7 as amended: read_config performs no schema validation, so malformed
rule sets surface as panics at first evaluation rather than at load time;
rule evaluation silently accepts any target that fits in a u8 (its only check
is u8::try_from), and a target outside 1..31 is rejected only by
goto_profile's assertion — a runtime panic raised before a frame is
constructed and before any write, and only on a tick that actually attempts
the switch with the device present. -/
theorem c7_amended :
    (∀ (config : JValue) (w : ActiveWindow) (app : String) (p : Nat),
      next_profile config w app = .ok (some p) → p ≤ 255) ∧
    (∀ (env : Env) (cfg : JValue) (prev : Option Nat) (cb : Option (List String))
      (w : ActiveWindow) (p : Nat),
      env.window = some w →
      next_profile cfg w (env.app_name.getD "unknown") = .ok (some p) →
      ¬(1 ≤ p ∧ p ≤ 31) → prev ≠ some p → env.init_ok = true →
      switch_profile env cfg prev cb =
        (.error "assertion failed: profile >= 1 && profile <= 31", cb, ⟨1, [], []⟩)) := by
  constructor
  · intro config w app p h
    cases config with
    | obj fields =>
      cases hj : jget (JValue.obj fields) "rules_list" with
      | none => simp [next_profile, hj] at h
      | some rv =>
        cases ha : rv.as_array with
        | none => simp [next_profile, hj, ha] at h
        | some items =>
          have h2 : next_profile_rules items w app = .ok (some p) := by
            simpa [next_profile, hj, ha] using h
          exact next_profile_rules_le w app items p h2
    | null => simp [next_profile] at h
    | bool b => simp [next_profile] at h
    | num n => simp [next_profile] at h
    | str s => simp [next_profile] at h
    | arr xs => simp [next_profile] at h
  · intro env cfg prev cb w p hw hc hrange hne hinit
    exact switch_profile_assert_panic env cfg prev cb w p hw hc hne hinit hrange

/-- C7 counterexample: the config whose single catch-all rule targets profile
40 is a valid JSON document, so read_config loads it without complaint; rule
evaluation then silently returns 40; and the out-of-range target is only
caught as a goto_profile assertion panic during a tick with the device
present — not rejected at load time. -/
theorem c7_counterexample :
    read_config (some cfgOutOfRange) = .ok cfgOutOfRange ∧
    next_profile cfgOutOfRange ctxEmpty "" = .ok (some 40) ∧
    switch_profile fullEnv cfgOutOfRange none none =
      (.error "assertion failed: profile >= 1 && profile <= 31", none, ⟨1, [], []⟩) :=
  ⟨rfl, rfl, rfl⟩

/-- C7 witness: the amended theorem instantiated at the profile-40 config. -/
theorem c7_witness :
    (40 : Nat) ≤ 255 ∧
    switch_profile fullEnv cfgOutOfRange none none =
      (.error "assertion failed: profile >= 1 && profile <= 31", none, ⟨1, [], []⟩) :=
  ⟨c7_amended.1 cfgOutOfRange ctxEmpty "" 40 rfl,
   c7_amended.2 fullEnv cfgOutOfRange none none ctxEmpty 40 rfl rfl (by omega)
     (by simp) rfl⟩

/-- run_callback appends to the Command state it is given: the result is the
old argument list followed by the arguments of this invocation alone. -/
theorem run_callback_append (cb : List String) (p : Nat) (w : ActiveWindow)
    (a : String) : run_callback cb p w a = cb ++ run_callback [] p w a := by
  by_cases h1 : a ≠ "" <;> by_cases h2 : w.title ≠ "" <;>
    by_cases h3 : w.process_name ≠ "" <;> simp [run_callback, h1, h2, h3]

/-- C10: run_callback mutates the Command in place by appending, and the
daemon threads one Command value through every successful switch, so on the
second of two successful switches with a callback configured the spawned
child receives the first invocation's accumulated arguments prepended to its
own -p, -a, -t, -n arguments. -/
theorem c10_callback_accumulation
    (env1 env2 : Env) (config : JValue) (w1 w2 : ActiveWindow) (p1 p2 : Nat)
    (args0 : List String) (prev : Option Nat)
    (hw1 : env1.window = some w1) (hw2 : env2.window = some w2)
    (hi1 : env1.init_ok = true) (hk1 : env1.write_ok = true) (hr1 : env1.read_err = false)
    (hi2 : env2.init_ok = true) (hk2 : env2.write_ok = true) (hr2 : env2.read_err = false)
    (hc1 : next_profile config w1 (env1.app_name.getD "unknown") = .ok (some p1))
    (hc2 : next_profile config w2 (env2.app_name.getD "unknown") = .ok (some p2))
    (hne1 : prev ≠ some p1) (hne2 : p2 ≠ p1)
    (hp11 : 1 ≤ p1) (hp12 : p1 ≤ 31) (hp21 : 1 ≤ p2) (hp22 : p2 ≤ 31) :
    ∃ log1 log2,
      switch_profile env1 config prev (some args0) =
        (.ok (some p1),
          some (args0 ++ run_callback [] p1 w1 (env1.app_name.getD "unknown")), log1) ∧
      log1.spawns = [args0 ++ run_callback [] p1 w1 (env1.app_name.getD "unknown")] ∧
      switch_profile env2 config (some p1)
          (some (args0 ++ run_callback [] p1 w1 (env1.app_name.getD "unknown"))) =
        (.ok (some p2),
          some (args0 ++ run_callback [] p1 w1 (env1.app_name.getD "unknown")
            ++ run_callback [] p2 w2 (env2.app_name.getD "unknown")), log2) ∧
      log2.spawns = [args0 ++ run_callback [] p1 w1 (env1.app_name.getD "unknown")
        ++ run_callback [] p2 w2 (env2.app_name.getD "unknown")] := by
  have ha1 := switch_profile_success_some env1 config prev args0 w1 p1 hw1 hc1 hne1
    hi1 hk1 hr1 hp11 hp12
  rw [run_callback_append args0 p1 w1 (env1.app_name.getD "unknown")] at ha1
  have hne2' : some p1 ≠ some p2 := fun h => hne2 (Option.some.inj h).symm
  have ha2 := switch_profile_success_some env2 config (some p1)
    (args0 ++ run_callback [] p1 w1 (env1.app_name.getD "unknown")) w2 p2 hw2 hc2 hne2'
    hi2 hk2 hr2 hp21 hp22
  rw [run_callback_append (args0 ++ run_callback [] p1 w1 (env1.app_name.getD "unknown"))
    p2 w2 (env2.app_name.getD "unknown")] at ha2
  exact ⟨_, _, ha1, rfl, ha2, rfl⟩

/-- C10 witness: two successful switches through the worked-example config,
starting from an empty Command argument list. -/
theorem c10_witness :
    ∃ log1 log2,
      switch_profile envCode cfgTwoRules none (some []) =
        (.ok (some 2),
          some ([] ++ run_callback [] 2 wCode (envCode.app_name.getD "unknown")), log1) ∧
      log1.spawns = [[] ++ run_callback [] 2 wCode (envCode.app_name.getD "unknown")] ∧
      switch_profile envTerm cfgTwoRules (some 2)
          (some ([] ++ run_callback [] 2 wCode (envCode.app_name.getD "unknown"))) =
        (.ok (some 1),
          some ([] ++ run_callback [] 2 wCode (envCode.app_name.getD "unknown")
            ++ run_callback [] 1 wTerm (envTerm.app_name.getD "unknown")), log2) ∧
      log2.spawns = [[] ++ run_callback [] 2 wCode (envCode.app_name.getD "unknown")
        ++ run_callback [] 1 wTerm (envTerm.app_name.getD "unknown")] :=
  c10_callback_accumulation envCode envTerm cfgTwoRules wCode wTerm 2 1 [] none
    rfl rfl rfl rfl rfl rfl rfl rfl rfl rfl (by simp) (by decide)
    (by decide) (by decide) (by decide) (by decide)
